import Mathlib

/-!
Shallow embedding of `databaseManager.py` (class `DatabaseManager`) from the
NBA-Game-Score repository: a thin wrapper over one sqlite3 connection.

Modelling conventions:
* Python runtime values that can be stored as column data are `PyVal`; floats
  are carried by rationals (stored values are only written and read back,
  never computed with, so the carrier of the float payload is irrelevant).
* The sqlite driver is, per the specification, an out-of-scope collaborator.
  It is modelled as a store that keeps bound parameter values exactly as
  given; engine-internal type-affinity coercions are collaborator behaviour
  outside the model.
* A `State` is one `DatabaseManager` instance together with the database file
  it is connected to, the accumulated `print` output (`log`) and the trace of
  driver calls successfully issued on the connection (`trace`).
* Python exceptions are modelled by `Err`; an operation returns the state as
  it is when the exception propagates, paired with `some` error.  Operations
  that also return data (`get_element_list`, `get_all`) pair the state with an
  `Except` result instead.
-/

/-- A Python runtime value as it can appear in the data handled by the class:
an element of a plain list, or a field of a pandas record. -/
inductive PyVal where
  | pyInt (n : Int)
  | pyFloat (q : Rat)
  | npInt64 (n : Int)
  | npFloat64 (q : Rat)
  | pyStr (s : String)
  | null
deriving DecidableEq

/-- Python `type(v).__name__` for the representable runtime values. -/
def typeName : PyVal → String
  | .pyInt _ => "int"
  | .pyFloat _ => "float"
  | .npInt64 _ => "int64"
  | .npFloat64 _ => "float64"
  | .pyStr _ => "str"
  | .null => "NoneType"

/-- Python `str.upper` (the repository only handles ASCII identifiers). -/
def strUpper (s : String) : String := String.mk (s.data.map Char.toUpper)

/-- Python `str.split(' ')` on the underlying character list; in particular
the split of the empty string is `[[]]`, matching `''.split(' ') == ['']`. -/
def splitSpaceChars : List Char → List (List Char)
  | [] => [[]]
  | c :: cs =>
    if c = ' ' then [] :: splitSpaceChars cs
    else
      match splitSpaceChars cs with
      | [] => [[c]]
      | g :: gs => (c :: g) :: gs

/-- Python `str.split(', ')` on the underlying character list. -/
def splitCommaSpaceChars : List Char → List (List Char)
  | [] => [[]]
  | [c] => [[c]]
  | c1 :: c2 :: cs =>
    if c1 = ',' ∧ c2 = ' ' then [] :: splitCommaSpaceChars cs
    else
      match splitCommaSpaceChars (c2 :: cs) with
      | [] => [[c1]]
      | g :: gs => (c1 :: g) :: gs

/-- Python `s.split(' ')`. -/
def strSplitSpace (s : String) : List String :=
  (splitSpaceChars s.data).map String.mk

/-- Python `s.split(', ')`. -/
def strSplitCommaSpace (s : String) : List String :=
  (splitCommaSpaceChars s.data).map String.mk

/-- Python `sep.join xs`. -/
def joinWith (sep : String) : List String → String
  | [] => ""
  | [x] => x
  | x :: y :: rest => x ++ sep ++ joinWith sep (y :: rest)

/-- One column of a created table: its name and declared type as they appear
in the CREATE statement, plus whether it is the
`INTEGER PRIMARY KEY AUTOINCREMENT` surrogate id of a scalar table. -/
structure Column where
  name : String
  declType : String
  autoIncPk : Bool
deriving DecidableEq

/-- A stored table: its columns as created, the next value of the
autoincrement id counter, and its rows (tuples of stored values, kept in
insertion order, which is also ascending-rowid order in sqlite). -/
structure Table where
  columns : List Column
  nextId : Int
  rows : List (List PyVal)
deriving DecidableEq

/-- Whether the table has a `list_element` column; sqlite matches column
names case-insensitively, modelled by comparing uppercased names. -/
def Table.hasListElement (t : Table) : Bool :=
  t.columns.any (fun c => strUpper c.name == "LIST_ELEMENT")

/-- Position of the `list_element` column inside a row tuple. -/
def Table.listElementIdx (t : Table) : Nat :=
  t.columns.findIdx (fun c => strUpper c.name == "LIST_ELEMENT")

/-- The two columns created by `create_table`:
`id INTEGER PRIMARY KEY AUTOINCREMENT, list_element {element_type}`. -/
def scalarColumns (element_type : String) : List Column :=
  [{ name := "id", declType := "INTEGER", autoIncPk := true },
   { name := "list_element", declType := element_type, autoIncPk := false }]

/-- A freshly created scalar-list table. -/
def scalarTable (element_type : String) : Table :=
  { columns := scalarColumns element_type, nextId := 1, rows := [] }

/-- The database file: named tables (sqlite table names are unique within one
database file, and the wrapper only creates tables through
CREATE TABLE IF NOT EXISTS). -/
structure DB where
  tables : List (String × Table)
deriving DecidableEq

/-- Table lookup by name. -/
def DB.find (db : DB) (n : String) : Option Table :=
  (db.tables.find? (fun p => p.1 == n)).map (fun p => p.2)

/-- Replace the first binding of `n` (names are unique in any reachable
database, so this is plain in-place update). -/
def setFirstTable : List (String × Table) → String → Table → List (String × Table)
  | [], _, _ => []
  | p :: ps, n, t => if p.1 == n then (n, t) :: ps else p :: setFirstTable ps n t

/-- Write back the table bound to `n`. -/
def DB.set (db : DB) (n : String) (t : Table) : DB := ⟨setFirstTable db.tables n t⟩

/-- Effect of `CREATE TABLE IF NOT EXISTS n ...`. -/
def DB.createIfNotExists (db : DB) (n : String) (t : Table) : DB :=
  match db.find n with
  | some _ => db
  | none => ⟨db.tables ++ [(n, t)]⟩

/-- Effect of `DROP TABLE IF EXISTS n`. -/
def DB.drop (db : DB) (n : String) : DB :=
  ⟨db.tables.filter (fun p => !(p.1 == n))⟩

/-- One call into the sqlite driver, as issued by the wrapper. -/
inductive DriverCall where
  | execute (sql : String) (params : List PyVal)
  | executemany (sql : String) (paramsList : List (List PyVal))
  | commit
  | close
deriving DecidableEq

/-- The Python exceptions that the methods of the class can raise. -/
inductive Err where
  /-- IndexError from `element_list[0]` on an empty list; the specification
  names this failure of `save_list_to_database` EmptyInputError. -/
  | emptyInputError
  /-- sqlite3.ProgrammingError (Cannot operate on a closed database), raised
  by any cursor/connection use after `close_connection`; the specification
  names it ClosedConnectionError. -/
  | closedConnectionError
  /-- NameError from referring to an undefined global name (`conn` inside
  `create_table_for_object`, `create_table_for_object` inside
  `save_object_list` — both are missing the `self.` receiver). -/
  | nameError
  /-- ValueError from unpacking `column.split(' ')` into exactly two names
  when the split does not have exactly two parts. -/
  | valueError
  /-- sqlite3.OperationalError: no such table / no such column. -/
  | operationalError
deriving DecidableEq

/-- One `DatabaseManager` instance plus the database it is connected to.
`isOpen` models whether `self.conn` is still open; `log` collects `print`
output; `trace` records the driver calls issued on the connection. -/
structure State where
  db_name : String
  table_name : String
  isOpen : Bool
  db : DB
  log : List String
  trace : List DriverCall
deriving DecidableEq

/-- Text of the CREATE statement of `create_table` (whitespace of the Python
triple-quoted literal collapsed; no claim depends on the layout). -/
def create_table_sql (tbl element_type : String) : String :=
  "CREATE TABLE IF NOT EXISTS " ++ tbl ++
    " (id INTEGER PRIMARY KEY AUTOINCREMENT, list_element " ++ element_type ++ ")"

/-- Text of the single-row insert of `save_list_to_database`: the element is
bound through the `?` placeholder, never interpolated into the text. -/
def scalar_insert_sql (tbl : String) : String :=
  "INSERT INTO " ++ tbl ++ " (list_element) VALUES (?)"

/-- Text of the DROP statement of `delete_table`. -/
def drop_table_sql (tbl : String) : String :=
  "DROP TABLE IF EXISTS " ++ tbl

/-- Text of the SELECT of `get_element_list`. -/
def select_element_sql (tbl : String) : String :=
  "SELECT list_element FROM " ++ tbl

/-- Text of the SELECT of `get_all`. -/
def select_all_sql (tbl : String) : String :=
  "SELECT * FROM " ++ tbl

/-- Text of the CREATE statement of `create_table_for_object`. -/
def object_create_sql (tbl cols : String) : String :=
  "CREATE TABLE IF NOT EXISTS " ++ tbl ++ " (" ++ cols ++ ")"

/-- `DatabaseManager.create_table(element_type)`: issues
CREATE TABLE IF NOT EXISTS for the active table with the fixed two-column
scalar schema, then commits.  On a closed connection `cursor.execute`
raises before anything happens. -/
def create_table (s : State) (element_type : String) : State × Option Err :=
  if s.isOpen then
    ({ s with
        db := s.db.createIfNotExists s.table_name (scalarTable element_type),
        trace := s.trace ++
          [.execute (create_table_sql s.table_name element_type) [], .commit] },
     none)
  else (s, some .closedConnectionError)

/-- The Python call `create_table()` with the defaulted argument
`element_type='REAL'`. -/
def create_table_default (s : State) : State × Option Err := create_table s "REAL"

/-- One record (a pandas `Series` row): field names in iteration order, each
with its value.  The fields represent data entries, which are not callable,
so the source filter `not callable(getattr(obj, attr))` keeps all of them. -/
def Record := List (String × PyVal)

/-- The fixed lookup table `column_types` of `create_table_for_object`
(applied after the whole properties string has been uppercased). -/
def column_types (column_type : String) : Option String :=
  if column_type == "STR" then some "TEXT"
  else if column_type == "INT64" then some "INTEGER"
  else if column_type == "FLOAT64" then some "REAL"
  else none

/-- The loop of `create_table_for_object` over `table_properties.split(', ')`:
`column_name, column_type = column.split(' ')` followed by the lookup
`column_types.get(column_type, column_type)`.  `none` models the ValueError
raised when the split does not have exactly two parts (for example for an
empty record, where the properties string is empty). -/
def parseUpdatedColumns : List String → Option (List Column)
  | [] => some []
  | column :: rest =>
    match strSplitSpace column with
    | [column_name, column_type] =>
      (parseUpdatedColumns rest).map
        (fun cs =>
          { name := column_name,
            declType := (column_types column_type).getD column_type,
            autoIncPk := false } :: cs)
    | _ => none

/-- `DatabaseManager.create_table_for_object(obj)`: builds the
`'NAME typename'` pair strings (skipping fields starting with the reserved
prefix `__`), joins them with `', '`, uppercases the joined string, re-splits
it, maps each type through `column_types`, and executes
CREATE TABLE IF NOT EXISTS with the result.  The method then runs
`conn.commit()`: the global name `conn` is undefined (the receiver `self.` is
missing), so Python raises NameError after the execute on every call. -/
def create_table_for_object (s : State) (obj : Record) : State × Option Err :=
  let table_properties :=
    strUpper (joinWith ", "
      ((obj.filter (fun p => !(List.isPrefixOf "__".data p.1.data))).map
        (fun p => strUpper p.1 ++ " " ++ typeName p.2)))
  match parseUpdatedColumns (strSplitCommaSpace table_properties) with
  | none => (s, some .valueError)
  | some updated_columns =>
    if s.isOpen then
      let colsStr := joinWith ", "
        (updated_columns.map (fun c => c.name ++ " " ++ c.declType))
      ({ s with
          db := s.db.createIfNotExists s.table_name
            { columns := updated_columns, nextId := 1, rows := [] },
          trace := s.trace ++ [.execute (object_create_sql s.table_name colsStr) []] },
       some .nameError)
    else (s, some .closedConnectionError)

/-- `DatabaseManager.delete_table`: DROP TABLE IF EXISTS for the active
table, commit, and print a confirmation line. -/
def delete_table (s : State) : State × Option Err :=
  if s.isOpen then
    ({ s with
        db := s.db.drop s.table_name,
        trace := s.trace ++ [.execute (drop_table_sql s.table_name) [], .commit],
        log := s.log ++ ["Table " ++ s.table_name ++ " deleted."] },
     none)
  else (s, some .closedConnectionError)

/-- One iteration of the insert loop of `save_list_to_database`:
`cursor.execute('INSERT INTO {table} (list_element) VALUES (?)', (element,))`.
The element is bound positionally as a parameter; the autoincrement id column
receives the next counter value, any other column of the table receives NULL
(sqlite semantics of an insert that names only `list_element`). -/
def insertScalarOne (s : State) (element : PyVal) : State × Option Err :=
  if s.isOpen then
    match s.db.find s.table_name with
    | none => (s, some .operationalError)
    | some t =>
      if t.hasListElement then
        let row := t.columns.map (fun c =>
          if c.autoIncPk then PyVal.pyInt t.nextId
          else if strUpper c.name == "LIST_ELEMENT" then element
          else PyVal.null)
        ({ s with
            db := s.db.set s.table_name
              { t with nextId := t.nextId + 1, rows := t.rows ++ [row] },
            trace := s.trace ++ [.execute (scalar_insert_sql s.table_name) [element]] },
         none)
      else (s, some .operationalError)
  else (s, some .closedConnectionError)

/-- The `for element in element_list` loop of `save_list_to_database`; a
raised exception aborts the remaining iterations. -/
def insertScalarLoop : State → List PyVal → State × Option Err
  | s, [] => (s, none)
  | s, element :: rest =>
    match insertScalarOne s element with
    | (s1, none) => insertScalarLoop s1 rest
    | (s1, some e) => (s1, some e)

/-- `DatabaseManager.save_list_to_database(element_list)`: reads
`element_list[0]` (IndexError on an empty list, before any database access),
calls `create_table` with the inferred runtime type name, inserts every
element through one parameterized single-row insert each, then commits once
after the whole loop. -/
def save_list_to_database (s : State) (element_list : List PyVal) : State × Option Err :=
  match element_list with
  | [] => (s, some .emptyInputError)
  | first :: _ =>
    match create_table s (typeName first) with
    | (s1, some e) => (s1, some e)
    | (s1, none) =>
      match insertScalarLoop s1 element_list with
      | (s2, some e) => (s2, some e)
      | (s2, none) => ({ s2 with trace := s2.trace ++ [.commit] }, none)

/-- `DatabaseManager.save_object_list(list_of_objects)`: on an empty batch it
prints a notice and returns before touching the connection.  On a non-empty
batch the source calls `create_table_for_object(...)` without the `self.`
receiver; no module-level binding of that name exists, so Python raises
NameError before any table creation or insert, and the
executemany/commit/print lines below the call are unreachable. -/
def save_object_list (s : State) (list_of_objects : List Record) : State × Option Err :=
  if list_of_objects.isEmpty then
    ({ s with log := s.log ++ ["List of objects is empty. No action taken."] }, none)
  else
    (s, some .nameError)

/-- `DatabaseManager.set_table_name(new_table_name)`: assigns the field and
prints; the connection and the database file are not touched. -/
def set_table_name (s : State) (new_table_name : String) : State :=
  { s with
      table_name := new_table_name,
      log := s.log ++ ["Table name set to: " ++ new_table_name] }

/-- `DatabaseManager.get_element_list`: `SELECT list_element FROM {table}`,
returning the stored `list_element` value of every row in the default
(ascending rowid) retrieval order.  A missing table or a table without a
`list_element` column is an OperationalError of the driver. -/
def get_element_list (s : State) : State × Except Err (List PyVal) :=
  if s.isOpen then
    match s.db.find s.table_name with
    | none => (s, .error .operationalError)
    | some t =>
      if t.hasListElement then
        ({ s with trace := s.trace ++ [.execute (select_element_sql s.table_name) []] },
         .ok (t.rows.map (fun r => r.getD t.listElementIdx PyVal.null)))
      else (s, .error .operationalError)
  else (s, .error .closedConnectionError)

/-- `DatabaseManager.get_all`: `SELECT * FROM {table}`, returning every row
of the active table as a tuple in column order. -/
def get_all (s : State) : State × Except Err (List (List PyVal)) :=
  if s.isOpen then
    match s.db.find s.table_name with
    | none => (s, .error .operationalError)
    | some t =>
      ({ s with trace := s.trace ++ [.execute (select_all_sql s.table_name) []] },
       .ok t.rows)
  else (s, .error .closedConnectionError)

/-- `DatabaseManager.close_connection`: `self.conn.close()`.  Closing an
already closed sqlite3 connection is a no-op, so this never raises. -/
def close_connection (s : State) : State :=
  { s with isOpen := false, trace := s.trace ++ [.close] }

/-- `DatabaseManager.__init__(db_name, table_name)` on a fresh database file:
connect (an empty database) and run `create_table()` with the default
element type REAL. -/
def initStore (db_name table_name : String) : State :=
  (create_table_default
    { db_name := db_name, table_name := table_name, isOpen := true,
      db := ⟨[]⟩, log := [], trace := [] }).1

/-- The rows that inserting a list into a scalar table produces, starting at
autoincrement counter `n`: each row is the id paired with the element. -/
def scalarRows : Int → List PyVal → List (List PyVal)
  | _, [] => []
  | n, v :: vs => [PyVal.pyInt n, v] :: scalarRows (n + 1) vs

/-- A freshly constructed manager on a fresh file (the running example). -/
def exampleStore : State := initStore "games.db" "my_table"

/-- The running example after `close_connection`. -/
def closedStore : State := close_connection exampleStore

/-- A one-field record with a numpy float64 value, as a row of a pandas
DataFrame of game points would carry. -/
def sampleRecord : Record := [("points", PyVal.npFloat64 101)]

/-- The running example pointed at a not-yet-existing table. -/
def movesStore : State := set_table_name exampleStore "moves"

/-! Helper lemmas about the database model. -/

theorem find_set_self (db : DB) (n : String) (t t0 : Table)
    (h : db.find n = some t0) : (db.set n t).find n = some t := by
  obtain ⟨l⟩ := db
  induction l with
  | nil => simp [DB.find] at h
  | cons p ps ih =>
    by_cases hp : p.1 == n
    · simp [DB.set, DB.find, setFirstTable, hp, List.find?]
    · simp only [DB.find, List.find?, hp] at h
      simpa [DB.set, DB.find, setFirstTable, hp, List.find?] using ih h

theorem set_set (db : DB) (n : String) (t1 t2 : Table) :
    (db.set n t1).set n t2 = db.set n t2 := by
  obtain ⟨l⟩ := db
  induction l with
  | nil => rfl
  | cons p ps ih =>
    by_cases hp : p.1 == n
    · simp [DB.set, setFirstTable, hp]
    · simpa [DB.set, setFirstTable, hp, DB.mk.injEq] using congrArg DB.tables ih

theorem set_found (db : DB) (n : String) (t : Table)
    (h : db.find n = some t) : db.set n t = db := by
  obtain ⟨l⟩ := db
  induction l with
  | nil => rfl
  | cons p ps ih =>
    by_cases hp : p.1 == n
    · simp only [DB.find, List.find?, hp, Option.map_some] at h
      obtain rfl : p.2 = t := by simpa using h
      have hn : p.1 = n := by simpa using hp
      simp [DB.set, setFirstTable, hp, ← hn]
    · simp only [DB.find, List.find?, hp] at h
      simpa [DB.set, setFirstTable, hp, DB.mk.injEq] using congrArg DB.tables (ih h)

theorem find_createIfNotExists_none (db : DB) (n : String) (t : Table)
    (h : db.find n = none) : (db.createIfNotExists n t).find n = some t := by
  obtain ⟨l⟩ := db
  rw [DB.createIfNotExists]
  simp only [h]
  induction l with
  | nil => simp [DB.find, List.find?]
  | cons p ps ih =>
    by_cases hp : p.1 == n
    · simp [DB.find, List.find?, hp] at h
    · simp only [DB.find, List.find?, hp] at h ⊢
      simpa [DB.find, List.find?, hp] using ih h

theorem createIfNotExists_found (db : DB) (n : String) (t t0 : Table)
    (h : db.find n = some t0) : db.createIfNotExists n t = db := by
  rw [DB.createIfNotExists, h]

theorem find_drop (db : DB) (n : String) : (db.drop n).find n = none := by
  obtain ⟨l⟩ := db
  induction l with
  | nil => rfl
  | cons p ps ih =>
    by_cases hp : p.1 == n
    · simp [DB.drop, DB.find, hp] at ih ⊢
    · simp [DB.drop, DB.find, List.find?, hp] at ih ⊢

theorem strUpper_list_element_eq : (strUpper "list_element" == "LIST_ELEMENT") = true := by
  decide

theorem strUpper_id_ne : (strUpper "id" == "LIST_ELEMENT") = false := by
  decide

theorem strUpper_list_element_val : strUpper "list_element" = "LIST_ELEMENT" := by
  decide

theorem hasListElement_scalar (ty : String) (n : Int) (R : List (List PyVal)) :
    Table.hasListElement ⟨scalarColumns ty, n, R⟩ = true := by
  simp [Table.hasListElement, scalarColumns, strUpper_list_element_eq]

theorem listElementIdx_scalar (ty : String) (n : Int) (R : List (List PyVal)) :
    Table.listElementIdx ⟨scalarColumns ty, n, R⟩ = 1 := by
  simp [Table.listElementIdx, scalarColumns, List.findIdx_cons,
    strUpper_list_element_eq, strUpper_id_ne]

theorem scalarRows_map_getD (L : List PyVal) : ∀ n : Int,
    (scalarRows n L).map (fun r => r.getD 1 PyVal.null) = L := by
  induction L with
  | nil => intro n; rfl
  | cons v vs ih =>
    intro n
    simp only [scalarRows, List.map_cons]
    rw [ih (n + 1)]
    simp [List.getD]

theorem insertScalarOne_scalar (s : State) (ty : String) (n : Int)
    (R : List (List PyVal)) (v : PyVal)
    (hopen : s.isOpen = true)
    (hfind : s.db.find s.table_name = some ⟨scalarColumns ty, n, R⟩) :
    insertScalarOne s v =
      ({ s with
          db := s.db.set s.table_name ⟨scalarColumns ty, n + 1, R ++ [[PyVal.pyInt n, v]]⟩,
          trace := s.trace ++ [.execute (scalar_insert_sql s.table_name) [v]] },
       none) := by
  rw [insertScalarOne, if_pos hopen, hfind]
  dsimp only
  rw [hasListElement_scalar, if_pos rfl]
  simp [scalarColumns, strUpper_list_element_val]

theorem insertScalarLoop_scalar (L : List PyVal) : ∀ (s : State) (ty : String)
    (n : Int) (R : List (List PyVal)),
    s.isOpen = true →
    s.db.find s.table_name = some ⟨scalarColumns ty, n, R⟩ →
    insertScalarLoop s L =
      ({ s with
          db := s.db.set s.table_name ⟨scalarColumns ty, n + L.length, R ++ scalarRows n L⟩,
          trace := s.trace ++
            L.map (fun v => DriverCall.execute (scalar_insert_sql s.table_name) [v]) },
       none) := by
  induction L with
  | nil =>
    intro s ty n R hopen hfind
    simp only [insertScalarLoop, scalarRows, List.map_nil, List.append_nil,
      List.length_nil, Nat.cast_zero, add_zero]
    rw [set_found s.db s.table_name _ hfind]
  | cons v vs ih =>
    intro s ty n R hopen hfind
    simp only [insertScalarLoop]
    rw [insertScalarOne_scalar s ty n R v hopen hfind]
    dsimp only
    rw [ih { db_name := s.db_name, table_name := s.table_name, isOpen := s.isOpen,
             db := s.db.set s.table_name ⟨scalarColumns ty, n + 1, R ++ [[PyVal.pyInt n, v]]⟩,
             log := s.log,
             trace := s.trace ++ [DriverCall.execute (scalar_insert_sql s.table_name) [v]] }
          ty (n + 1) (R ++ [[PyVal.pyInt n, v]]) hopen
          (find_set_self s.db s.table_name _ _ hfind)]
    dsimp only
    rw [set_set]
    have hT : (⟨scalarColumns ty, n + 1 + (vs.length : Int),
        (R ++ [[PyVal.pyInt n, v]]) ++ scalarRows (n + 1) vs⟩ : Table) =
        ⟨scalarColumns ty, n + ((v :: vs).length : Int), R ++ scalarRows n (v :: vs)⟩ := by
      have h1 : n + 1 + (vs.length : Int) = n + ((v :: vs).length : Int) := by
        simp only [List.length_cons]
        push_cast
        ring
      have h2 : (R ++ [[PyVal.pyInt n, v]]) ++ scalarRows (n + 1) vs =
          R ++ scalarRows n (v :: vs) := by
        simp [scalarRows, List.append_assoc]
      rw [h1, h2]
    rw [hT]
    simp [List.append_assoc]

theorem insertScalarOne_fields (s : State) (v : PyVal) :
    (insertScalarOne s v).1.isOpen = s.isOpen ∧
    (insertScalarOne s v).1.table_name = s.table_name ∧
    (insertScalarOne s v).1.db_name = s.db_name := by
  rw [insertScalarOne]
  split
  · split
    · exact ⟨rfl, rfl, rfl⟩
    · split
      · exact ⟨rfl, rfl, rfl⟩
      · exact ⟨rfl, rfl, rfl⟩
  · exact ⟨rfl, rfl, rfl⟩

theorem insertScalarLoop_fields (L : List PyVal) : ∀ s : State,
    (insertScalarLoop s L).1.isOpen = s.isOpen ∧
    (insertScalarLoop s L).1.table_name = s.table_name ∧
    (insertScalarLoop s L).1.db_name = s.db_name := by
  induction L with
  | nil => intro s; exact ⟨rfl, rfl, rfl⟩
  | cons v vs ih =>
    intro s
    simp only [insertScalarLoop]
    have h1 := insertScalarOne_fields s v
    cases hm : insertScalarOne s v with
    | mk s1 e =>
      rw [hm] at h1
      cases e with
      | none =>
        have h2 := ih s1
        exact ⟨h2.1.trans h1.1, h2.2.1.trans h1.2.1, h2.2.2.trans h1.2.2⟩
      | some e => exact h1

theorem create_table_fields (s : State) (ty : String) :
    (create_table s ty).1.isOpen = s.isOpen ∧
    (create_table s ty).1.table_name = s.table_name ∧
    (create_table s ty).1.db_name = s.db_name := by
  rw [create_table]
  split
  · exact ⟨rfl, rfl, rfl⟩
  · exact ⟨rfl, rfl, rfl⟩

theorem create_table_for_object_fields (s : State) (obj : Record) :
    (create_table_for_object s obj).1.isOpen = s.isOpen ∧
    (create_table_for_object s obj).1.table_name = s.table_name ∧
    (create_table_for_object s obj).1.db_name = s.db_name := by
  rw [create_table_for_object]
  dsimp only
  split
  · exact ⟨rfl, rfl, rfl⟩
  · split
    · exact ⟨rfl, rfl, rfl⟩
    · exact ⟨rfl, rfl, rfl⟩

theorem delete_table_fields (s : State) :
    (delete_table s).1.isOpen = s.isOpen ∧
    (delete_table s).1.table_name = s.table_name ∧
    (delete_table s).1.db_name = s.db_name := by
  rw [delete_table]
  split
  · exact ⟨rfl, rfl, rfl⟩
  · exact ⟨rfl, rfl, rfl⟩

theorem save_list_fields (s : State) (L : List PyVal) :
    (save_list_to_database s L).1.isOpen = s.isOpen ∧
    (save_list_to_database s L).1.table_name = s.table_name ∧
    (save_list_to_database s L).1.db_name = s.db_name := by
  cases L with
  | nil => exact ⟨rfl, rfl, rfl⟩
  | cons x xs =>
    simp only [save_list_to_database]
    have h1 := create_table_fields s (typeName x)
    cases hc : create_table s (typeName x) with
    | mk s1 e =>
      rw [hc] at h1
      cases e with
      | none =>
        dsimp only
        have h2 := insertScalarLoop_fields (x :: xs) s1
        cases hl : insertScalarLoop s1 (x :: xs) with
        | mk s2 e2 =>
          rw [hl] at h2
          cases e2 with
          | none =>
            exact ⟨h2.1.trans h1.1, h2.2.1.trans h1.2.1, h2.2.2.trans h1.2.2⟩
          | some e2 =>
            exact ⟨h2.1.trans h1.1, h2.2.1.trans h1.2.1, h2.2.2.trans h1.2.2⟩
      | some e => exact h1

theorem save_object_list_fields (s : State) (rs : List Record) :
    (save_object_list s rs).1.isOpen = s.isOpen ∧
    (save_object_list s rs).1.table_name = s.table_name ∧
    (save_object_list s rs).1.db_name = s.db_name := by
  rw [save_object_list]
  split
  · exact ⟨rfl, rfl, rfl⟩
  · exact ⟨rfl, rfl, rfl⟩

theorem get_element_list_fields (s : State) :
    (get_element_list s).1.isOpen = s.isOpen ∧
    (get_element_list s).1.table_name = s.table_name ∧
    (get_element_list s).1.db_name = s.db_name := by
  rw [get_element_list]
  split
  · split
    · exact ⟨rfl, rfl, rfl⟩
    · split
      · exact ⟨rfl, rfl, rfl⟩
      · exact ⟨rfl, rfl, rfl⟩
  · exact ⟨rfl, rfl, rfl⟩

theorem get_all_fields (s : State) :
    (get_all s).1.isOpen = s.isOpen ∧
    (get_all s).1.table_name = s.table_name ∧
    (get_all s).1.db_name = s.db_name := by
  rw [get_all]
  split
  · split
    · exact ⟨rfl, rfl, rfl⟩
    · exact ⟨rfl, rfl, rfl⟩
  · exact ⟨rfl, rfl, rfl⟩

theorem save_list_scalar_general (s : State) (x : PyVal) (xs : List PyVal)
    (ty : String) (n : Int) (R : List (List PyVal))
    (hopen : s.isOpen = true)
    (hfound : (s.db.createIfNotExists s.table_name (scalarTable (typeName x))).find
        s.table_name = some ⟨scalarColumns ty, n, R⟩) :
    save_list_to_database s (x :: xs) =
      ({ s with
          db := (s.db.createIfNotExists s.table_name (scalarTable (typeName x))).set
            s.table_name
            ⟨scalarColumns ty, n + (x :: xs).length, R ++ scalarRows n (x :: xs)⟩,
          trace :=
            ((s.trace ++
                [.execute (create_table_sql s.table_name (typeName x)) [], .commit]) ++
              (x :: xs).map
                (fun v => DriverCall.execute (scalar_insert_sql s.table_name) [v])) ++
            [.commit] },
       none) := by
  simp only [save_list_to_database, create_table]
  rw [if_pos hopen]
  dsimp only
  rw [insertScalarLoop_scalar (x :: xs)
    { db_name := s.db_name, table_name := s.table_name, isOpen := s.isOpen,
      db := s.db.createIfNotExists s.table_name (scalarTable (typeName x)),
      log := s.log,
      trace := s.trace ++
        [.execute (create_table_sql s.table_name (typeName x)) [], .commit] }
    ty n R hopen hfound]

/-- C1: saving a non-empty scalar list and then reading the scalar column back
on the same open store — whose active table does not exist yet or is an empty
scalar table, as right after construction — returns exactly the saved
elements, in the order of the list, under ascending-id retrieval. -/
theorem save_scalar_roundtrip (s : State) (x : PyVal) (xs : List PyVal)
    (hopen : s.isOpen = true)
    (hslot : s.db.find s.table_name = none ∨
      ∃ ty n, s.db.find s.table_name =
        some ⟨scalarColumns ty, n, ([] : List (List PyVal))⟩) :
    (save_list_to_database s (x :: xs)).2 = none ∧
    (get_element_list (save_list_to_database s (x :: xs)).1).2 =
      Except.ok (x :: xs) := by
  obtain ⟨ty0, n0, hfound⟩ : ∃ ty0 n0,
      (s.db.createIfNotExists s.table_name (scalarTable (typeName x))).find
        s.table_name = some ⟨scalarColumns ty0, n0, ([] : List (List PyVal))⟩ := by
    rcases hslot with hn | ⟨ty, n, hs⟩
    · exact ⟨typeName x, 1, find_createIfNotExists_none _ _ _ hn⟩
    · rw [createIfNotExists_found _ _ _ _ hs]
      exact ⟨ty, n, hs⟩
  rw [save_list_scalar_general s x xs ty0 n0 [] hopen hfound]
  refine ⟨rfl, ?_⟩
  rw [get_element_list]
  dsimp only
  rw [if_pos hopen, find_set_self _ _ _ _ hfound]
  dsimp only
  rw [hasListElement_scalar, if_pos rfl]
  dsimp only
  rw [listElementIdx_scalar, List.nil_append]
  exact congrArg Except.ok (scalarRows_map_getD (x :: xs) n0)

/-- Witness for C1: on a freshly constructed store, saving `[1.0, 2.0]` and
reading the column back yields `[1.0, 2.0]`. -/
theorem save_scalar_roundtrip_witness :
    (get_element_list
      (save_list_to_database exampleStore [PyVal.pyFloat 1, PyVal.pyFloat 2]).1).2 =
      Except.ok [PyVal.pyFloat 1, PyVal.pyFloat 2] :=
  (save_scalar_roundtrip exampleStore (PyVal.pyFloat 1) [PyVal.pyFloat 2] rfl
    (Or.inr ⟨"REAL", 1, rfl⟩)).2

/-- C2: `save_list_to_database` on an empty list fails (the IndexError that
the specification labels EmptyInputError) and leaves the whole state — in
particular the database, so no new table and no new row — unchanged. -/
theorem save_list_empty_is_error (s : State) :
    save_list_to_database s [] = (s, some Err.emptyInputError) := rfl

/-- C3: on every non-empty batch, `save_object_list` raises NameError at the
receiverless call `create_table_for_object(...)` before creating any table,
inserting any row or committing; the state is returned unchanged. -/
theorem save_object_list_nonempty_raises (s : State) (r : Record) (rs : List Record) :
    save_object_list s (r :: rs) = (s, some Err.nameError) := rfl

/-- C4: `create_table_for_object` derives the uppercased single column
`POINTS REAL` from a one-field float64 record and creates the table, but the
call then raises NameError at `conn.commit()` (missing `self.`), and so does
every repeated call — it is not an error-free idempotent operation. -/
theorem create_table_for_object_always_raises :
    (create_table_for_object movesStore sampleRecord).2 = some Err.nameError ∧
    (create_table_for_object movesStore sampleRecord).1.db.find "moves" =
      some { columns := [{ name := "POINTS", declType := "REAL", autoIncPk := false }],
             nextId := 1, rows := [] } ∧
    (create_table_for_object (create_table_for_object movesStore sampleRecord).1
        sampleRecord).2 = some Err.nameError :=
  ⟨rfl, rfl, rfl⟩

/-- C6: `save_object_list` on an empty batch logs the no-op notice and
returns without error, leaving the database, the trace, the active table
name and the open flag unchanged. -/
theorem save_object_list_empty_noop (s : State) :
    (save_object_list s []).2 = none ∧
    (save_object_list s []).1.db = s.db ∧
    (save_object_list s []).1.trace = s.trace ∧
    (save_object_list s []).1.table_name = s.table_name ∧
    (save_object_list s []).1.isOpen = s.isOpen ∧
    (save_object_list s []).1.log =
      s.log ++ ["List of objects is empty. No action taken."] :=
  ⟨rfl, rfl, rfl, rfl, rfl, rfl⟩

/-- C7: `create_table` never fails on an open store, creates the active table
with exactly the two columns id (autoincrement integer primary key) and
`list_element` of the requested type when the table is absent, leaves the
database untouched when the table already exists, defaults the type to REAL,
and a second call (with any type) changes nothing and raises no error. -/
theorem create_table_two_columns_idempotent (s : State) (ty ty2 : String)
    (hopen : s.isOpen = true) :
    (create_table s ty).2 = none ∧
    (s.db.find s.table_name = none →
      (create_table s ty).1.db.find s.table_name =
        some { columns := [{ name := "id", declType := "INTEGER", autoIncPk := true },
                           { name := "list_element", declType := ty, autoIncPk := false }],
               nextId := 1, rows := [] }) ∧
    (∀ t, s.db.find s.table_name = some t → (create_table s ty).1.db = s.db) ∧
    create_table_default s = create_table s "REAL" ∧
    (create_table (create_table s ty).1 ty2).2 = none ∧
    (create_table (create_table s ty).1 ty2).1.db = (create_table s ty).1.db := by
  have hunfold : create_table s ty =
      ({ s with
          db := s.db.createIfNotExists s.table_name (scalarTable ty),
          trace := s.trace ++
            [.execute (create_table_sql s.table_name ty) [], .commit] }, none) := by
    rw [create_table, if_pos hopen]
  refine ⟨?_, ?_, ?_, rfl, ?_, ?_⟩
  · rw [hunfold]
  · intro hn
    rw [hunfold]
    dsimp only
    exact find_createIfNotExists_none _ _ _ hn
  · intro t ht
    rw [hunfold]
    dsimp only
    exact createIfNotExists_found _ _ _ _ ht
  · rw [hunfold, create_table]
    dsimp only
    rw [if_pos hopen]
  · rw [hunfold, create_table]
    dsimp only
    rw [if_pos hopen]
    dsimp only
    obtain ⟨t0, ht0⟩ : ∃ t0,
        (s.db.createIfNotExists s.table_name (scalarTable ty)).find s.table_name =
          some t0 := by
      cases hc : s.db.find s.table_name with
      | none => exact ⟨scalarTable ty, find_createIfNotExists_none _ _ _ hc⟩
      | some t0 =>
        rw [createIfNotExists_found _ _ _ _ hc]
        exact ⟨t0, hc⟩
    exact createIfNotExists_found _ _ _ _ ht0

/-- Witness for C7: on the freshly constructed store (where the active table
already exists) a further `create_table "TEXT"` raises no error and leaves
the database unchanged. -/
theorem create_table_two_columns_idempotent_witness :
    (create_table exampleStore "TEXT").2 = none ∧
    (create_table exampleStore "TEXT").1.db = exampleStore.db :=
  ⟨(create_table_two_columns_idempotent exampleStore "TEXT" "TEXT" rfl).1,
   (create_table_two_columns_idempotent exampleStore "TEXT" "TEXT" rfl).2.2.1
     (scalarTable "REAL") rfl⟩

/-- C8: `set_table_name` replaces only the active-table field (plus the
printed log line); the database, the driver-call trace, the open flag and
the file name are untouched, so no table is created, renamed, dropped or
verified to exist. -/
theorem set_table_name_frame (s : State) (nm : String) :
    (set_table_name s nm).table_name = nm ∧
    (set_table_name s nm).db = s.db ∧
    (set_table_name s nm).trace = s.trace ∧
    (set_table_name s nm).isOpen = s.isOpen ∧
    (set_table_name s nm).db_name = s.db_name ∧
    (set_table_name s nm).log = s.log ++ ["Table name set to: " ++ nm] :=
  ⟨rfl, rfl, rfl, rfl, rfl, rfl⟩

/-- C9: every operation other than `set_table_name` leaves the active table
name unchanged — in particular `delete_table` drops the table the name still
points at, so afterwards the unchanged name refers to the dropped table. -/
theorem operations_preserve_active_table (s : State) (ty : String) (obj : Record)
    (L : List PyVal) (rs : List Record) :
    (create_table s ty).1.table_name = s.table_name ∧
    (create_table_for_object s obj).1.table_name = s.table_name ∧
    (delete_table s).1.table_name = s.table_name ∧
    (save_list_to_database s L).1.table_name = s.table_name ∧
    (save_object_list s rs).1.table_name = s.table_name ∧
    (get_element_list s).1.table_name = s.table_name ∧
    (get_all s).1.table_name = s.table_name ∧
    (close_connection s).table_name = s.table_name ∧
    (s.isOpen = true → (delete_table s).1.db.find s.table_name = none) := by
  refine ⟨(create_table_fields s ty).2.1, (create_table_for_object_fields s obj).2.1,
    (delete_table_fields s).2.1, (save_list_fields s L).2.1,
    (save_object_list_fields s rs).2.1, (get_element_list_fields s).2.1,
    (get_all_fields s).2.1, rfl, ?_⟩
  intro hopen
  rw [delete_table, if_pos hopen]
  dsimp only
  exact find_drop s.db s.table_name

/-- Witness for C9: after dropping the active table of the example store the
active name is still `my_table`, which now refers to no table. -/
theorem operations_preserve_active_table_witness :
    (delete_table exampleStore).1.table_name = "my_table" ∧
    (delete_table exampleStore).1.db.find "my_table" = none :=
  ⟨(operations_preserve_active_table exampleStore "REAL" [] [] []).2.2.1,
   (operations_preserve_active_table exampleStore "REAL" [] [] []).2.2.2.2.2.2.2.2 rfl⟩

/-- C10: on a successful save of a non-empty list, the trace of driver calls
shows each element bound through the fixed parameterized statement text
`scalar_insert_sql` (a function of the table name only — element values never
appear in the statement text), and after the `create_table` subcall (whose
own execute+commit precede all inserts) exactly one commit is issued, after
all the single-row inserts. -/
theorem save_list_parameterized_single_commit (s : State) (x : PyVal) (xs : List PyVal)
    (hopen : s.isOpen = true)
    (hslot : s.db.find s.table_name = none ∨
      ∃ ty n R, s.db.find s.table_name = some ⟨scalarColumns ty, n, R⟩) :
    (save_list_to_database s (x :: xs)).2 = none ∧
    (save_list_to_database s (x :: xs)).1.trace =
      ((s.trace ++
          [DriverCall.execute (create_table_sql s.table_name (typeName x)) [],
           DriverCall.commit]) ++
        (x :: xs).map
          (fun v => DriverCall.execute (scalar_insert_sql s.table_name) [v])) ++
      [DriverCall.commit] := by
  obtain ⟨ty0, n0, R0, hfound⟩ : ∃ ty0 n0 R0,
      (s.db.createIfNotExists s.table_name (scalarTable (typeName x))).find
        s.table_name = some ⟨scalarColumns ty0, n0, R0⟩ := by
    rcases hslot with hn | ⟨ty, n, R, hs⟩
    · exact ⟨typeName x, 1, [], find_createIfNotExists_none _ _ _ hn⟩
    · rw [createIfNotExists_found _ _ _ _ hs]
      exact ⟨ty, n, R, hs⟩
  rw [save_list_scalar_general s x xs ty0 n0 R0 hopen hfound]
  exact ⟨rfl, rfl⟩

/-- Witness for C10: the concrete trace of saving `[3.0]` on the example
store. -/
theorem save_list_parameterized_single_commit_witness :
    (save_list_to_database exampleStore [PyVal.pyFloat 3]).1.trace =
      ((exampleStore.trace ++
          [DriverCall.execute (create_table_sql "my_table" "float") [],
           DriverCall.commit]) ++
        [DriverCall.execute (scalar_insert_sql "my_table") [PyVal.pyFloat 3]]) ++
      [DriverCall.commit] :=
  (save_list_parameterized_single_commit exampleStore (PyVal.pyFloat 3) [] rfl
    (Or.inr ⟨"REAL", 1, [], rfl⟩)).2

/-- C5 (amended): after `close_connection`, every operation that reaches the
connection — `create_table`, `delete_table`, `save_list_to_database` on a
non-empty list, `get_element_list`, `get_all` — fails with the closed-database
ProgrammingError (the ClosedConnectionError of the specification) and leaves
the state unchanged; but `save_object_list` on an empty batch returns without
error (its early return never touches the connection) and on a non-empty
batch fails with the NameError of C3 before reaching the connection.  The
only lifecycle transition is Open to Closed via `close_connection`: no other
operation changes the open flag, and closing again keeps the store closed. -/
theorem closed_store_behavior (s u : State) (ty : String) (v : PyVal)
    (L : List PyVal) (r : Record) (rs : List Record) (nm : String)
    (hclosed : s.isOpen = false) :
    create_table s ty = (s, some Err.closedConnectionError) ∧
    delete_table s = (s, some Err.closedConnectionError) ∧
    save_list_to_database s (v :: L) = (s, some Err.closedConnectionError) ∧
    get_element_list s = (s, Except.error Err.closedConnectionError) ∧
    get_all s = (s, Except.error Err.closedConnectionError) ∧
    (save_object_list s []).2 = none ∧
    (save_object_list s []).1.db = s.db ∧
    save_object_list s (r :: rs) = (s, some Err.nameError) ∧
    (close_connection s).isOpen = false ∧
    (create_table u ty).1.isOpen = u.isOpen ∧
    (create_table_for_object u r).1.isOpen = u.isOpen ∧
    (delete_table u).1.isOpen = u.isOpen ∧
    (save_list_to_database u L).1.isOpen = u.isOpen ∧
    (save_object_list u rs).1.isOpen = u.isOpen ∧
    (set_table_name u nm).isOpen = u.isOpen ∧
    (get_element_list u).1.isOpen = u.isOpen ∧
    (get_all u).1.isOpen = u.isOpen ∧
    (close_connection u).isOpen = false := by
  have hnot : ¬ (s.isOpen = true) := by
    rw [hclosed]
    exact Bool.false_ne_true
  refine ⟨?_, ?_, ?_, ?_, ?_, rfl, rfl, rfl, rfl,
    (create_table_fields u ty).1, (create_table_for_object_fields u r).1,
    (delete_table_fields u).1, (save_list_fields u L).1,
    (save_object_list_fields u rs).1, rfl,
    (get_element_list_fields u).1, (get_all_fields u).1, rfl⟩
  · rw [create_table, if_neg hnot]
  · rw [delete_table, if_neg hnot]
  · simp only [save_list_to_database, create_table]
    rw [if_neg hnot]
  · rw [get_element_list, if_neg hnot]
  · rw [get_all, if_neg hnot]

/-- Witness for C5: `get_all` on the closed example store fails with the
closed-connection error. -/
theorem closed_store_behavior_witness :
    get_all closedStore = (closedStore, Except.error Err.closedConnectionError) :=
  (closed_store_behavior closedStore exampleStore "REAL" PyVal.null [] [] [] "t"
    rfl).2.2.2.2.1

/-- Counterexample for C5 as stated: `save_object_list` with an empty batch,
called on a store on which `close_connection` has run, returns without any
error — it does not fail with the closed-connection error. -/
theorem closed_store_empty_batch_no_failure :
    closedStore.isOpen = false ∧
    (save_object_list closedStore []).2 = none ∧
    (save_object_list closedStore []).2 ≠ some Err.closedConnectionError :=
  ⟨rfl, rfl, by decide⟩
